import Mathlib

/-!
Shallow embedding of `train1.py`, the CLI training entry point of the
SOFA-Modded repository.  The script parses CLI options, loads and merges
YAML configurations, builds datasets/dataloaders, configures the
checkpoint callback, resolves the checkpoint to resume from, and invokes
the trainer.  Every definition below is translated from a specific part
of the source file; line numbers refer to `src/train1.py`.
-/

namespace Train1

/-- A YAML scalar value, the value type of the configuration mappings
loaded by `yaml.safe_load` (numbers modelled as rationals since Python's
`/` is true division). -/
inductive Yaml where
  | s : String → Yaml
  | n : ℚ → Yaml
  | b : Bool → Yaml
  deriving DecidableEq, Repr

/-- A Python `dict` with string keys, in insertion order.  A genuine
dict has no duplicate keys; lemmas that need this take it as a
hypothesis. -/
abbrev Dict (V : Type) := List (String × V)

/-- Dictionary lookup, `d[k]`-as-`Option`: the value at the first (and
in a real dict, only) occurrence of the key. -/
def dictGet {V : Type} : Dict V → String → Option V
  | [], _ => none
  | p :: rest, k => if p.1 = k then some p.2 else dictGet rest k

/-- `d[k] = v`: replace the value at an existing key (keeping its
position, as CPython does) or append a fresh binding. -/
def dictSet {V : Type} : Dict V → String → V → Dict V
  | [], k, v => [(k, v)]
  | p :: rest, k, v =>
    if p.1 = k then (k, v) :: rest else p :: dictSet rest k v

/-- `d.update(other)` (line 73: `config.update(config_global)`): set
every binding of `other` into `d`, in order. -/
def dictUpdate {V : Type} (d other : Dict V) : Dict V :=
  other.foldl (fun acc p => dictSet acc p.1 p.2) d

/-- The CLI options of `main` with the defaults declared by the
`click.option` decorators (lines 16-56). -/
structure CLIOpts where
  config_path : String := "configs/train_config.yaml"
  data_folder : String := "data"
  pretrained_model_path : Option String := none
  resume : Bool := false
  ft : Bool := false
  deriving DecidableEq, Repr

/-- The options object produced by running the command with no
arguments: click supplies each declared default. -/
def defaultCLIOpts : CLIOpts := {}

/-- The default value declared for a click option: either a string
option default (possibly `None`) or a flag default. -/
inductive ClickDefault where
  | str : Option String → ClickDefault
  | flag : Bool → ClickDefault
  deriving DecidableEq, Repr

/-- The five `click.option` declarations of `train1.py` (lines 16-56):
long name, short name, declared default. -/
def train1Options : List (String × String × ClickDefault) :=
  [("--config_path", "-c", ClickDefault.str (some "configs/train_config.yaml")),
   ("--data_folder", "-d", ClickDefault.str (some "data")),
   ("--pretrained_model_path", "-p", ClickDefault.str none),
   ("--resume", "-r", ClickDefault.flag false),
   ("--ft", "-ft", ClickDefault.flag false)]

/-- Look up a declared option by its long name. -/
def clickDefault (long : String) : Option (String × ClickDefault) :=
  (train1Options.find? (fun o => o.1 = long)).map (fun o => o.2)

/-- The character index of the leftmost occurrence of `sep` in `s`, if
any: the search underlying Python `str.split`. -/
def findSepIdx (sep : List Char) : List Char → Option Nat
  | [] => if sep.isPrefixOf ([] : List Char) then some 0 else none
  | c :: rest =>
    if sep.isPrefixOf (c :: rest) then some 0
    else (findSepIdx sep rest).map (fun i => i + 1)

/-- Python `s.split(sep)` for a non-empty separator: cut at the
leftmost occurrence and recurse on the remainder.  Structured with a
fuel argument so that it is structurally recursive; each cut removes at
least `sep.length ≥ 1` characters, so `fuel = s.length + 1` always
suffices and the fuel-exhausted branch is never reached. -/
def pySplitFuel (sep : List Char) : Nat → List Char → List (List Char)
  | 0, s => [s]
  | fuel + 1, s =>
    match findSepIdx sep s with
    | none => [s]
    | some i => s.take i :: pySplitFuel sep fuel (s.drop (i + sep.length))

/-- Python `s.split(sep)` for a non-empty `sep`. -/
def pySplit (s sep : List Char) : List (List Char) :=
  pySplitFuel sep (s.length + 1) s

/-- The decimal value of a non-empty, all-digit character list;
`none` otherwise. -/
def digitsToNat : List Char → Option Nat
  | [] => none
  | ds =>
    ds.foldl
      (fun acc c =>
        match acc with
        | none => none
        | some n =>
          if c.isDigit then some (n * 10 + (c.toNat - 48)) else none)
      (some 0)

/-- Python `int(s)` on the characters of `s`: an optional sign followed
by one or more decimal digits; `none` models the `ValueError` raised
otherwise.  (Python additionally strips surrounding whitespace and
allows underscores between digits; the checkpoint stems this is applied
to contain neither, and those cases are omitted.) -/
def pyIntChars : List Char → Option Int
  | [] => none
  | '-' :: ds => (digitsToNat ds).map (fun n => -(n : Int))
  | '+' :: ds => (digitsToNat ds).map (fun n => (n : Int))
  | ds => (digitsToNat ds).map (fun n => (n : Int))

/-- The sort key of line 172, `int(x.stem.split("step=")[-1])`, applied
to a checkpoint file's stem (filename without the `.ckpt` suffix).
`pySplit` with a non-empty separator never returns `[]`, so the
`getLastD` default is never used. -/
def ckptStep (stem : String) : Option Int :=
  pyIntChars ((pySplit stem.data "step=".data).getLastD stem.data)

/-- Evaluating the sort key on every globbed checkpoint stem (the key
calls of `sorted` at lines 171-173).  An `error` is the unhandled
`ValueError` from `int()` on a stem without a trailing integer. -/
def keyedStems : List String → Except String (List (String × Int))
  | [] => Except.ok []
  | stem :: rest =>
    match ckptStep stem with
    | some k => (keyedStems rest).map (fun l => (stem, k) :: l)
    | none => Except.error stem

/-- The comparison realizing `sorted(..., key=..., reverse=True)` at
lines 171-173: `a` may come before `b` when `a`'s step is at least
`b`'s. -/
def stepGe (a b : String × Int) : Bool := decide (b.2 ≤ a.2)

/-- Lines 170-174: glob `ckpt/<model_name>/` for `*.ckpt` stems, sort
them by step number in descending order (`sorted(..., reverse=True)` is
a stable sort; `mergeSort` with the flipped comparison matches it), and
take element 0 if the list is non-empty, else `None`. -/
def resolveCkptPath (model_name : String) (stems : List String) :
    Except String (Option String) :=
  (keyedStems stems).map (fun keyed =>
    let sorted := keyed.mergeSort stepGe
    match sorted.head? with
    | some p => some ("ckpt/" ++ model_name ++ "/" ++ p.1 ++ ".ckpt")
    | none => none)

/-- Lines 163-174: the `ckpt_path` handed to `trainer.fit`.  It starts
as `None`; the pretrained branch leaves it `None`; only the
`elif resume` branch resolves it from the checkpoint directory. -/
def mainCkptPath (pretrained_model_path : Option String) (resume : Bool)
    (model_name : String) (stems : List String) :
    Except String (Option String) :=
  match pretrained_model_path with
  | some _ => Except.ok none
  | none =>
    if resume then resolveCkptPath model_name stems else Except.ok none

/-- The three initialization modes of lines 163-174. -/
inductive InitMode where
  | fromPretrained
  | resumeLatest
  | scratch
  deriving DecidableEq, Repr

/-- Which branch of the `if pretrained_model_path is not None / elif
resume / else` chain runs. -/
def initMode : Option String → Bool → InitMode
  | some _, _ => InitMode.fromPretrained
  | none, true => InitMode.resumeLatest
  | none, false => InitMode.scratch

/-- The keyword arguments of the `ModelCheckpoint` constructed at lines
124-132. -/
structure ModelCheckpointArgs where
  dirpath : String
  monitor : String
  mode : String
  save_top_k : ℚ
  filename : String
  every_n_train_steps : ℚ
  verbose : Bool
  deriving DecidableEq, Repr

/-- Lines 123-134: `checkpoint_callback` is a `ModelCheckpoint` keeping
the top `num_ckpt_keep` checkpoints by step when `ft` is not set, and
`None` when it is. -/
def checkpointCallback (ft : Bool) (save_path : String)
    (num_ckpt_keep val_check_interval : ℚ) : Option ModelCheckpointArgs :=
  if !ft then
    some { dirpath := save_path
           monitor := "step"
           mode := "max"
           save_top_k := num_ckpt_keep
           filename := "{step}"
           every_n_train_steps := val_check_interval
           verbose := true }
  else none

/-- Lines 184-187: after `trainer.fit` returns, if `ft` is set a
weights-only checkpoint is saved at `ckpt/<model_name>.ckpt`; the
result is the `(path, weights_only)` pair of that call, if any. -/
def finalCheckpointSave (ft : Bool) (model_name : String) :
    Option (String × Bool) :=
  if ft then some ("ckpt/" ++ model_name ++ ".ckpt", true) else none

/-- The `model_name` used by `main`: looked up in the run config after
it has been updated with the global config (lines 71-73, 121). -/
def mainModelName (config config_global : Dict Yaml) : Option Yaml :=
  dictGet (dictUpdate config config_global) "model_name"

/-- A filesystem access performed by `main`. -/
inductive FsOp where
  | openRead : String → FsOp
  | mkdirAll : String → FsOp
  | globCkpt : String → FsOp
  | loadCkpt : String → FsOp
  | saveCkpt : String → FsOp
  deriving DecidableEq, Repr

/-- The filesystem accesses of `main`, in program order: open the run
config (line 64), the vocabulary (line 67) and the global config
(line 71); create `ckpt/<model_name>` with `parents=True,
exist_ok=True` (lines 121-122); then either load the pretrained
checkpoint (line 166) or, only when resuming, glob the checkpoint
directory (line 170); finally, in finetuning mode, save the weights
checkpoint (lines 184-187).  `none` when the merged config holds no
string `model_name` (Python would raise a `KeyError`/`TypeError` at
line 121). -/
def mainFsOps (o : CLIOpts) (config config_global : Dict Yaml) :
    Option (List FsOp) :=
  match mainModelName config config_global with
  | some (Yaml.s name) =>
    some ([FsOp.openRead o.config_path,
           FsOp.openRead (o.data_folder ++ "/binary/vocab.yaml"),
           FsOp.openRead (o.data_folder ++ "/binary/global_config.yaml"),
           FsOp.mkdirAll ("ckpt/" ++ name)] ++
          (match o.pretrained_model_path with
           | some p => [FsOp.loadCkpt p]
           | none =>
             if o.resume then [FsOp.globCkpt ("ckpt/" ++ name)] else []) ++
          (if o.ft then [FsOp.saveCkpt ("ckpt/" ++ name ++ ".ckpt")] else []))
  | _ => none

/-- Line 87: the `max_length` argument of
`WeightedBinningAudioBatchSampler`,
`config["batch_max_length"] / (2 if config["data_augmentation_size"] > 0 else 1)`.
Python `/` is true division, modelled on `ℚ`. -/
def samplerMaxLength (batch_max_length data_augmentation_size : ℚ) : ℚ :=
  batch_max_length / (if data_augmentation_size > 0 then 2 else 1)

/-- Line 118: the augmentation-enabled boolean
`config["data_augmentation_size"] > 0` passed to
`LitForcedAlignmentTask`. -/
def augmentationEnabled (data_augmentation_size : ℚ) : Bool :=
  decide (data_augmentation_size > 0)

/-- The positional arguments of a `MixedDataset` construction
(augmentation size, binary folder, `prefix=` keyword, here named
`subsetTag`). -/
structure MixedDatasetArgs where
  augmentation_size : ℚ
  binary_folder : String
  subsetTag : String
  deriving DecidableEq, Repr

/-- Line 80-82: the training dataset,
`MixedDataset(config["data_augmentation_size"], data_folder / "binary", prefix="train")`. -/
def trainDataset (data_augmentation_size : ℚ) (data_folder : String) :
    MixedDatasetArgs :=
  { augmentation_size := data_augmentation_size
    binary_folder := data_folder ++ "/binary"
    subsetTag := "train" }

/-- Line 101: the validation dataset,
`MixedDataset(0, data_folder / "binary", prefix="valid")`. -/
def validDataset (data_folder : String) : MixedDatasetArgs :=
  { augmentation_size := 0
    binary_folder := data_folder ++ "/binary"
    subsetTag := "valid" }

/-- The keyword arguments of the validation `DataLoader`
(lines 102-109). -/
structure ValidLoaderArgs where
  batch_size : ℚ
  shuffle : Bool
  num_workers : ℚ
  persistent_workers : Bool
  deriving DecidableEq, Repr

/-- Lines 102-109: the validation dataloader keyword arguments; only
`num_workers` (and the derived `persistent_workers`) depends on the
configuration. -/
def validDataLoader (num_workers : ℚ) : ValidLoaderArgs :=
  { batch_size := 1
    shuffle := false
    num_workers := num_workers
    persistent_workers := decide (num_workers > 0) }

/-! ### Helper lemmas about the dict model -/

theorem dictGet_dictSet {V : Type} (d : Dict V) (k : String) (v : V)
    (k' : String) :
    dictGet (dictSet d k v) k' = if k' = k then some v else dictGet d k' := by
  induction d with
  | nil =>
    by_cases h : k' = k <;> simp [dictGet, dictSet, h, Ne.symm]
  | cons p rest ih =>
    by_cases hpk : p.1 = k
    · by_cases hk : k' = k
      · simp_all [dictGet, dictSet]
      · have hk2 : k ≠ k' := fun h => hk h.symm
        simp_all [dictGet, dictSet]
    · by_cases hk : k' = k
      · simp_all [dictGet, dictSet]
      · simp_all [dictGet, dictSet]

theorem dictGet_eq_none_of_not_mem {V : Type} (d : Dict V) (k : String)
    (h : k ∉ d.map Prod.fst) : dictGet d k = none := by
  induction d with
  | nil => rfl
  | cons p rest ih =>
    simp only [List.map_cons, List.mem_cons, not_or] at h
    simp [dictGet, Ne.symm h.1, ih h.2]

theorem dictGet_dictUpdate {V : Type} (other : Dict V) (d : Dict V)
    (hnd : (other.map Prod.fst).Nodup) (k : String) :
    dictGet (dictUpdate d other) k =
      match dictGet other k with
      | some v => some v
      | none => dictGet d k := by
  induction other generalizing d with
  | nil => simp [dictUpdate, dictGet]
  | cons p rest ih =>
    simp only [List.map_cons, List.nodup_cons] at hnd
    have hstep : dictUpdate d (p :: rest) =
        dictUpdate (dictSet d p.1 p.2) rest := rfl
    rw [hstep, ih _ hnd.2]
    by_cases hk : k = p.1
    · subst hk
      have hrest : dictGet rest p.1 = none :=
        dictGet_eq_none_of_not_mem _ _ hnd.1
      simp [dictGet, hrest, dictGet_dictSet]
    · simp [dictGet, Ne.symm hk, dictGet_dictSet, hk]

/-! ### Helper lemmas about checkpoint resolution -/

theorem keyedStems_ok (stems : List String)
    (h : ∀ s ∈ stems, (ckptStep s).isSome) :
    ∃ keyed, keyedStems stems = Except.ok keyed ∧
      keyed.map Prod.fst = stems ∧
      ∀ p ∈ keyed, ckptStep p.1 = some p.2 := by
  induction stems with
  | nil => exact ⟨[], rfl, rfl, by simp⟩
  | cons s rest ih =>
    obtain ⟨k, hk⟩ :=
      Option.isSome_iff_exists.mp (h s (List.mem_cons_self s rest))
    obtain ⟨keyed, hok, hmap, hsteps⟩ :=
      ih (fun t ht => h t (List.mem_cons_of_mem _ ht))
    refine ⟨(s, k) :: keyed, ?_, ?_, ?_⟩
    · simp [keyedStems, hk, hok, Except.map]
    · simp [hmap]
    · intro p hp
      rcases List.mem_cons.mp hp with hp | hp
      · subst hp; exact hk
      · exact hsteps p hp

theorem stepGe_trans (a b c : String × Int) (hab : stepGe a b)
    (hbc : stepGe b c) : stepGe a c := by
  simp only [stepGe, decide_eq_true_eq] at *
  exact le_trans hbc hab

theorem stepGe_total (a b : String × Int) : stepGe a b || stepGe b a := by
  simp only [stepGe, Bool.or_eq_true, decide_eq_true_eq]
  exact le_total b.2 a.2

theorem resolveCkptPath_max (model_name : String) (stems : List String)
    (hne : stems ≠ [])
    (hparse : ∀ s ∈ stems, (ckptStep s).isSome) :
    ∃ stem N, stem ∈ stems ∧ ckptStep stem = some N ∧
      (∀ s ∈ stems, ∀ M, ckptStep s = some M → M ≤ N) ∧
      resolveCkptPath model_name stems =
        Except.ok (some ("ckpt/" ++ model_name ++ "/" ++ stem ++ ".ckpt")) := by
  obtain ⟨keyed, hok, hmap, hsteps⟩ := keyedStems_ok stems hparse
  have hperm : List.Perm (keyed.mergeSort stepGe) keyed :=
    List.mergeSort_perm keyed stepGe
  have hsorted : (keyed.mergeSort stepGe).Pairwise (stepGe · ·) :=
    List.sorted_mergeSort stepGe_trans stepGe_total keyed
  cases hs : keyed.mergeSort stepGe with
  | nil =>
    rw [hs] at hperm
    have hkeyed : keyed = [] := hperm.symm.eq_nil
    rw [hkeyed] at hmap
    exact absurd hmap.symm hne
  | cons p0 tl =>
    rw [hs] at hperm hsorted
    have hp0keyed : p0 ∈ keyed := hperm.mem_iff.mp (List.mem_cons_self p0 tl)
    refine ⟨p0.1, p0.2, ?_, hsteps p0 hp0keyed, ?_, ?_⟩
    · rw [← hmap]
      exact List.mem_map_of_mem Prod.fst hp0keyed
    · intro s hsmem M hM
      rw [← hmap] at hsmem
      obtain ⟨q, hq, hq1⟩ := List.mem_map.mp hsmem
      have hqstep := hsteps q hq
      rw [hq1, hM] at hqstep
      have hM2 : M = q.2 := by injection hqstep
      have hqsorted : q ∈ p0 :: tl := hperm.mem_iff.mpr hq
      rcases List.mem_cons.mp hqsorted with h | h
      · rw [hM2, h]
      · have hge : stepGe p0 q := (List.pairwise_cons.mp hsorted).1 q h
        rw [hM2]
        simpa [stepGe] using hge
    · simp [resolveCkptPath, hok, Except.map, hs]

/-! ### Claim theorems -/

/-- C1: when `--resume` is set and `--pretrained_model_path` is not
given, the checkpoint to resume from is found by scanning
`ckpt/<model_name>/` for stems carrying a `step=<N>` number and picking
one with maximal `N`; the resulting path is the `ckpt_path` handed to
`trainer.fit`. -/
theorem resume_selects_latest_checkpoint (model_name : String)
    (stems : List String) (hne : stems ≠ [])
    (hparse : ∀ s ∈ stems, (ckptStep s).isSome) :
    ∃ stem N, stem ∈ stems ∧ ckptStep stem = some N ∧
      (∀ s ∈ stems, ∀ M, ckptStep s = some M → M ≤ N) ∧
      mainCkptPath none true model_name stems =
        Except.ok (some ("ckpt/" ++ model_name ++ "/" ++ stem ++ ".ckpt")) := by
  have h := resolveCkptPath_max model_name stems hne hparse
  simpa [mainCkptPath] using h

/-- Witness for C1 at a concrete directory listing. -/
theorem resume_selects_latest_checkpoint_witness :
    (["step=100", "step=2000", "step=300"] ≠ ([] : List String)) ∧
    (∀ s ∈ ["step=100", "step=2000", "step=300"], (ckptStep s).isSome) ∧
    ∃ stem N, stem ∈ ["step=100", "step=2000", "step=300"] ∧
      ckptStep stem = some N ∧
      (∀ s ∈ ["step=100", "step=2000", "step=300"], ∀ M,
        ckptStep s = some M → M ≤ N) ∧
      mainCkptPath none true "m" ["step=100", "step=2000", "step=300"] =
        Except.ok (some ("ckpt/" ++ "m" ++ "/" ++ stem ++ ".ckpt")) :=
  ⟨by decide, by decide,
   resume_selects_latest_checkpoint "m" ["step=100", "step=2000", "step=300"]
     (by decide) (by decide)⟩

/-- C2: top-k checkpointing is disabled (`checkpoint_callback = None`)
and a final weights-only checkpoint is saved at
`ckpt/<model_name>.ckpt` exactly when `--ft` is set; otherwise a
`ModelCheckpoint` keeping the top `num_ckpt_keep` checkpoints by step
is created and no final weights-only checkpoint is saved. -/
theorem ft_controls_checkpointing (ft : Bool) (save_path model_name : String)
    (num_ckpt_keep val_check_interval : ℚ) :
    (checkpointCallback ft save_path num_ckpt_keep val_check_interval = none ↔
      ft = true) ∧
    (finalCheckpointSave ft model_name =
        some ("ckpt/" ++ model_name ++ ".ckpt", true) ↔ ft = true) ∧
    (ft = false →
      checkpointCallback ft save_path num_ckpt_keep val_check_interval =
        some { dirpath := save_path
               monitor := "step"
               mode := "max"
               save_top_k := num_ckpt_keep
               filename := "{step}"
               every_n_train_steps := val_check_interval
               verbose := true } ∧
      finalCheckpointSave ft model_name = none) := by
  cases ft <;> simp [checkpointCallback, finalCheckpointSave]

/-- Witness for C2 in the non-finetuning case. -/
theorem ft_controls_checkpointing_witness :
    checkpointCallback false "ckpt/m" 5 1000 =
      some { dirpath := "ckpt/m"
             monitor := "step"
             mode := "max"
             save_top_k := 5
             filename := "{step}"
             every_n_train_steps := 1000
             verbose := true } ∧
    finalCheckpointSave false "m" = none :=
  (ft_controls_checkpointing false "ckpt/m" "m" 5 1000).2.2 rfl

/-- C3: `config.update(config_global)` merges the two mappings so that
the global config wins on every shared key and keys present in only
one mapping keep their value. -/
theorem global_config_overrides {V : Type} (config config_global : Dict V)
    (hnd : (config_global.map Prod.fst).Nodup) (k : String) :
    (∀ v, dictGet config_global k = some v →
      dictGet (dictUpdate config config_global) k = some v) ∧
    (dictGet config_global k = none →
      dictGet (dictUpdate config config_global) k = dictGet config k) := by
  constructor
  · intro v hv
    rw [dictGet_dictUpdate _ _ hnd, hv]
  · intro hv
    rw [dictGet_dictUpdate _ _ hnd, hv]

/-- Witness for C3 on concrete dictionaries sharing the key `b`. -/
theorem global_config_overrides_witness :
    (([("b", (3 : Int)), ("c", 4)].map Prod.fst).Nodup) ∧
    (∀ v, dictGet [("b", (3 : Int)), ("c", 4)] "b" = some v →
      dictGet (dictUpdate [("a", (1 : Int)), ("b", 2)]
        [("b", 3), ("c", 4)]) "b" = some v) ∧
    (dictGet [("b", (3 : Int)), ("c", 4)] "b" = none →
      dictGet (dictUpdate [("a", (1 : Int)), ("b", 2)]
          [("b", 3), ("c", 4)]) "b" =
        dictGet [("a", (1 : Int)), ("b", 2)] "b") :=
  ⟨by decide,
   (global_config_overrides [("a", (1 : Int)), ("b", 2)]
     [("b", 3), ("c", 4)] (by decide) "b").1,
   (global_config_overrides [("a", (1 : Int)), ("b", 2)]
     [("b", 3), ("c", 4)] (by decide) "b").2⟩

/-- C4: exactly one of the three initialization modes is taken:
pretrained when `--pretrained_model_path` is given, resume-latest when
only `--resume` is set, and scratch (with `ckpt_path = None`)
otherwise. -/
theorem init_mode_trichotomy (p : Option String) (r : Bool) :
    (initMode p r = InitMode.fromPretrained ↔ p.isSome = true) ∧
    (initMode p r = InitMode.resumeLatest ↔ p = none ∧ r = true) ∧
    (initMode p r = InitMode.scratch ↔ p = none ∧ r = false) ∧
    (initMode p r = InitMode.scratch →
      ∀ model_name stems,
        mainCkptPath p r model_name stems = Except.ok none) := by
  cases p <;> cases r <;> simp [initMode, mainCkptPath]

/-- Witness for C4: in scratch mode the `ckpt_path` is `None`. -/
theorem init_mode_trichotomy_witness :
    mainCkptPath none false "m" ["step=1"] = Except.ok none :=
  (init_mode_trichotomy none false).2.2.2 rfl "m" ["step=1"]

/-- C5: resuming with an empty checkpoint directory does not raise an
index error: `ckpt_path` defaults to `None`. -/
theorem resume_empty_dir_defaults_none (model_name : String) :
    mainCkptPath none true model_name [] = Except.ok none := by
  simp [mainCkptPath, resolveCkptPath, keyedStems, Except.map]

/-- C6: the program reads `<data_folder>/binary/vocab.yaml` and
`<data_folder>/binary/global_config.yaml`, and creates the checkpoint
directory `ckpt/<model_name>` where `model_name` comes from the merged
configuration. -/
theorem main_reads_and_ckpt_layout (o : CLIOpts)
    (config config_global : Dict Yaml) (name : String)
    (hname : mainModelName config config_global = some (Yaml.s name)) :
    ∃ ops, mainFsOps o config config_global = some ops ∧
      FsOp.openRead (o.data_folder ++ "/binary/vocab.yaml") ∈ ops ∧
      FsOp.openRead (o.data_folder ++ "/binary/global_config.yaml") ∈ ops ∧
      FsOp.mkdirAll ("ckpt/" ++ name) ∈ ops := by
  refine ⟨[FsOp.openRead o.config_path,
           FsOp.openRead (o.data_folder ++ "/binary/vocab.yaml"),
           FsOp.openRead (o.data_folder ++ "/binary/global_config.yaml"),
           FsOp.mkdirAll ("ckpt/" ++ name)] ++
          (match o.pretrained_model_path with
           | some p => [FsOp.loadCkpt p]
           | none =>
             if o.resume then [FsOp.globCkpt ("ckpt/" ++ name)] else []) ++
          (if o.ft then [FsOp.saveCkpt ("ckpt/" ++ name ++ ".ckpt")] else []),
          ?_, by simp, by simp, by simp⟩
  simp [mainFsOps, hname]

/-- Witness for C6 with the default CLI options and a concrete merged
config. -/
theorem main_reads_and_ckpt_layout_witness :
    mainModelName [("model_name", Yaml.s "mm")] [] = some (Yaml.s "mm") ∧
    ∃ ops, mainFsOps defaultCLIOpts [("model_name", Yaml.s "mm")] [] =
        some ops ∧
      FsOp.openRead (defaultCLIOpts.data_folder ++ "/binary/vocab.yaml") ∈ ops ∧
      FsOp.openRead
        (defaultCLIOpts.data_folder ++ "/binary/global_config.yaml") ∈ ops ∧
      FsOp.mkdirAll ("ckpt/" ++ "mm") ∈ ops :=
  ⟨by decide,
   main_reads_and_ckpt_layout defaultCLIOpts
     [("model_name", Yaml.s "mm")] [] "mm" (by decide)⟩

/-- C7: the CLI options carry the documented defaults:
`configs/train_config.yaml`, `data`, `None`, and the two flags
defaulting to false. -/
theorem cli_option_defaults :
    defaultCLIOpts.config_path = "configs/train_config.yaml" ∧
    defaultCLIOpts.data_folder = "data" ∧
    defaultCLIOpts.pretrained_model_path = none ∧
    defaultCLIOpts.resume = false ∧
    defaultCLIOpts.ft = false ∧
    clickDefault "--config_path" =
      some ("-c", ClickDefault.str (some "configs/train_config.yaml")) ∧
    clickDefault "--data_folder" = some ("-d", ClickDefault.str (some "data")) ∧
    clickDefault "--pretrained_model_path" =
      some ("-p", ClickDefault.str none) ∧
    clickDefault "--resume" = some ("-r", ClickDefault.flag false) ∧
    clickDefault "--ft" = some ("-ft", ClickDefault.flag false) := by
  refine ⟨rfl, rfl, rfl, rfl, rfl, ?_, ?_, ?_, ?_, ?_⟩ <;> decide

/-- C8: when both a pretrained model path and `--resume` are given, the
pretrained branch wins: the checkpoint directory is never globbed and
`ckpt_path` stays `None` whatever the directory contains. -/
theorem pretrained_overrides_resume (o : CLIOpts) (p : String)
    (config config_global : Dict Yaml)
    (hp : o.pretrained_model_path = some p) (hr : o.resume = true) :
    (∀ ops, mainFsOps o config config_global = some ops →
      ∀ d, FsOp.globCkpt d ∉ ops) ∧
    (∀ model_name stems,
      mainCkptPath o.pretrained_model_path o.resume model_name stems =
        Except.ok none) := by
  constructor
  · intro ops hops d
    cases hname : mainModelName config config_global with
    | none => simp [mainFsOps, hname] at hops
    | some y =>
      cases y with
      | s nm =>
        simp only [mainFsOps, hname, hp, Option.some.injEq] at hops
        subst hops
        cases hft : o.ft <;> simp [hft]
      | n q => simp [mainFsOps, hname] at hops
      | b bb => simp [mainFsOps, hname] at hops
  · intro model_name stems
    rw [hp]
    rfl

/-- Witness for C8 with both options set and a non-empty checkpoint
directory. -/
theorem pretrained_overrides_resume_witness :
    (∀ ops, mainFsOps { pretrained_model_path := some "pre.ckpt", resume := true }
        [("model_name", Yaml.s "mm")] [] = some ops →
      ∀ d, FsOp.globCkpt d ∉ ops) ∧
    (∀ model_name stems,
      mainCkptPath
        ({ pretrained_model_path := some "pre.ckpt",
           resume := true } : CLIOpts).pretrained_model_path
        ({ pretrained_model_path := some "pre.ckpt",
           resume := true } : CLIOpts).resume model_name stems =
        Except.ok none) :=
  pretrained_overrides_resume
    { pretrained_model_path := some "pre.ckpt", resume := true }
    "pre.ckpt" [("model_name", Yaml.s "mm")] [] rfl rfl

/-- C9: the sampler's maximum batch length is `batch_max_length / 2`
exactly when `data_augmentation_size > 0` and `batch_max_length`
otherwise, and the same condition is the augmentation flag passed to
the model task. -/
theorem augmentation_halves_batch_length (bml das : ℚ) :
    (das > 0 →
      samplerMaxLength bml das = bml / 2 ∧ augmentationEnabled das = true) ∧
    (¬ das > 0 →
      samplerMaxLength bml das = bml ∧ augmentationEnabled das = false) := by
  constructor
  · intro h
    simp [samplerMaxLength, augmentationEnabled, h]
  · intro h
    simp [samplerMaxLength, augmentationEnabled, h]

/-- Witness for C9 at augmentation sizes 3 and 0. -/
theorem augmentation_halves_batch_length_witness :
    ((3 : ℚ) > 0 ∧
      (samplerMaxLength 4000 3 = 4000 / 2 ∧ augmentationEnabled 3 = true)) ∧
    (¬ (0 : ℚ) > 0 ∧
      (samplerMaxLength 4000 0 = 4000 ∧ augmentationEnabled 0 = false)) :=
  ⟨⟨by norm_num, (augmentation_halves_batch_length 4000 3).1 (by norm_num)⟩,
   ⟨by norm_num, (augmentation_halves_batch_length 4000 0).2 (by norm_num)⟩⟩

/-- C10: the validation pipeline is fixed independently of the
configuration: augmentation size 0, batch size 1, no shuffling. -/
theorem valid_pipeline_fixed (data_folder : String) (num_workers : ℚ) :
    (validDataset data_folder).augmentation_size = 0 ∧
    (validDataset data_folder).subsetTag = "valid" ∧
    (validDataLoader num_workers).batch_size = 1 ∧
    (validDataLoader num_workers).shuffle = false :=
  ⟨rfl, rfl, rfl, rfl⟩

end Train1
